import Mathlib

/-!
Verification development for the filament-monitor repository.

The mutable runtime record `MonitorState` is embedded from
`src/filmon/state.py` (identical to the dataclass in
`src/filament-monitor.py`).  Timestamps and durations are modelled as
rationals; Python `bool` as `Bool`, counters as `Nat`.  The monitor object
`Mon` carries the `MonitorState` together with the monitor-internal
attributes that the specified core reads or writes (`_pulse_times`,
`_stall_next_idx`, `_next_hb_ts`, `_last_runout_edge`, `_last_rearm_edge`,
`_rearm_press_start_ts`, the stop event), plus two observable output logs:
the serial lines written (each Python `_ser.write((g + "\n").encode())`
call appends the line `g`) and the names of the logger events emitted.
Static construction parameters live in `Config`.

Namespace `Pkg` embeds the methods of `FilamentMonitor` from
`src/filmon/monitor.py`; namespace `Mono` embeds the same-named methods of
the monolithic `src/filament-monitor.py` (needed by the refinement claim).
Python `now_s()` (monotonic clock) and `time.time()` (wall clock) are
passed in as explicit `now` / `wall` arguments.
-/

structure MonitorState where
  enabled : Bool := false
  armed : Bool := false
  latched : Bool := false
  pause_sent_ts : ℚ := 0
  last_trigger : String := ""
  last_trigger_ts : ℚ := 0
  motion_pulses_total : Nat := 0
  motion_pulses_since_reset : Nat := 0
  last_pulse_ts : ℚ := 0
  motion_pulses_since_arm : Nat := 0
  arm_ts : ℚ := 0
  runout_asserted : Bool := false
  serial_connected : Bool := false
  serial_port : String := ""
  baud : Nat := 0
deriving Repr, DecidableEq

/-- Construction-time parameters of `FilamentMonitor.__init__` that the
specified core logic reads (the GPIO pin numbers and such configure only
the external edge sources and are not part of the decision logic). -/
structure Config where
  runout_debounce_s : ℚ := 0
  jam_timeout_s : ℚ := 8
  pause_gcode : String := "M600"
  breadcrumb_interval_s : ℚ := 2
  pulse_window_s : ℚ := 2
  rearm_button_debounce_s : ℚ := 1/4
  rearm_button_long_press_s : ℚ := 3/2
deriving Repr, DecidableEq

/-- Monitor object: shared `MonitorState`, monitor-internal attributes, and
the two observable output logs (serial lines written, event names emitted). -/
structure Mon where
  state : MonitorState := {}
  pulse_times : List ℚ := []
  stall_next_idx : Nat := 0
  next_hb_ts : ℚ := 0
  last_runout_edge : ℚ := 0
  last_rearm_edge : ℚ := 0
  rearm_press_start_ts : Option ℚ := none
  stop_evt : Bool := false
  writes : List String := []
  emits : List String := []
deriving Repr, DecidableEq

def VERSION : String := "1.0.4"

def CONTROL_ENABLE : String := "filmon:enable"

def CONTROL_DISABLE : String := "filmon:disable"

def CONTROL_RESET : String := "filmon:reset"

def CONTROL_ARM : String := "filmon:arm"

def CONTROL_UNARM : String := "filmon:unarm"

/-- Python `str.lower()` (the inputs involved are ASCII marker text). -/
def lowerStr (s : String) : String := String.mk (s.data.map Char.toLower)

/-- Python substring test `pat in hay`. -/
def containsSub (hay pat : String) : Bool :=
  hay.data.tails.any (fun t => pat.data.isPrefixOf t)

/-- Python `str.strip()`: drop leading and trailing whitespace. -/
def stripStr (s : String) : String :=
  String.mk (((s.data.dropWhile Char.isWhitespace).reverse.dropWhile Char.isWhitespace).reverse)

/-- Response value of `_handle_control_command` (the dict it returns),
before JSON serialization by `_control_loop`. -/
inductive Resp where
  | okSimple : Resp
  | okStatus (state : MonitorState) (version : String) : Resp
  | err (msg : String) : Resp
deriving Repr, DecidableEq

namespace Pkg

/-- Method `JsonLogger.emit` as observed by the core: it appends one event
line to stdout; we record the event name. -/
def emit (m : Mon) (event : String) : Mon :=
  { m with emits := m.emits ++ [event] }

/-- Method `_prune_pulses` of `src/filmon/monitor.py`: drop pulse
timestamps older than the configured window from the front of the deque
(the while-popleft loop is `dropWhile` on the front of the list). -/
def prunePulses (cfg : Config) (m : Mon) (now : ℚ) : Mon :=
  if cfg.pulse_window_s ≤ 0 then
    { m with pulse_times := [] }
  else
    { m with pulse_times := m.pulse_times.dropWhile (fun t => t < now - cfg.pulse_window_s) }

/-- Method `_pps`: prunes, then returns pulses-per-second over the window
(the method mutates the deque, so the updated monitor is returned too). -/
def pps (cfg : Config) (m : Mon) (now : ℚ) : Mon × ℚ :=
  let m := prunePulses cfg m now
  if cfg.pulse_window_s ≤ 0 then (m, 0)
  else (m, (m.pulse_times.length : ℚ) / cfg.pulse_window_s)

/-- Method `_reset_pulse_tracking`. -/
def resetPulseTracking (cfg : Config) (m : Mon) (now : ℚ) : Mon :=
  { m with pulse_times := [], stall_next_idx := 0,
           next_hb_ts := now + cfg.breadcrumb_interval_s }

/-- Method `_send_gcode`: writes one line `gcode` to the serial port and
emits a `gcode_sent` event. -/
def sendGcode (m : Mon) (gcode : String) : Mon :=
  let m := { m with writes := m.writes ++ [gcode] }
  emit m "gcode_sent"

/-- Method `_trigger_pause`: latch, record timestamps, emit
`pause_triggered` (whose `pps` field prunes the pulse window via `_pps`),
then write `M400` followed by the configured pause g-code. -/
def triggerPause (cfg : Config) (m : Mon) (reason : String) (now wall : ℚ) : Mon :=
  let m := { m with state := { m.state with
    latched := true, pause_sent_ts := wall,
    last_trigger := reason, last_trigger_ts := wall } }
  let m := (pps cfg m now).1
  let m := emit m "pause_triggered"
  let m := sendGcode m "M400"
  sendGcode m cfg.pause_gcode

/-- Method `_maybe_jam`: periodic jam evaluation against the fixed
`jam_timeout_s` threshold. -/
def maybeJam (cfg : Config) (m : Mon) (now wall : ℚ) : Mon :=
  if !m.state.enabled || m.state.latched || !m.state.armed then m
  else if cfg.jam_timeout_s ≤ now - m.state.last_pulse_ts then
    triggerPause cfg m "jam" now wall
  else m

/-- Method `_debounced`: runout edge debounce filter (mutates
`_last_runout_edge` when the edge is accepted). -/
def debounced (cfg : Config) (m : Mon) (now : ℚ) : Mon × Bool :=
  if now - m.last_runout_edge < cfg.runout_debounce_s then (m, false)
  else ({ m with last_runout_edge := now }, true)

/-- Method `_on_runout_asserted`.  Note: unlike `_on_motion_pulse` and the
button callbacks, this callback does not consult `_stop_evt`. -/
def onRunoutAsserted (cfg : Config) (m : Mon) (now wall : ℚ) : Mon :=
  let r := debounced cfg m now
  let m := r.1
  if !r.2 then m
  else
    let m := { m with state := { m.state with runout_asserted := true } }
    if m.state.armed then
      let m := emit m "runout_asserted"
      if m.state.enabled && !m.state.latched then triggerPause cfg m "runout" now wall
      else m
    else m

/-- Method `_on_runout_cleared` (also not gated by `_stop_evt`). -/
def onRunoutCleared (cfg : Config) (m : Mon) (now : ℚ) : Mon :=
  let r := debounced cfg m now
  let m := r.1
  if !r.2 then m
  else
    let m := { m with state := { m.state with runout_asserted := false } }
    if m.state.armed then emit m "runout_cleared" else m

/-- Method `_on_motion_pulse`: ignored once shutdown begins; otherwise
records the pulse, updates counters, and resets the stall progression.
Python truthiness `if self.state.arm_ts` is `arm_ts ≠ 0`. -/
def onMotionPulse (cfg : Config) (m : Mon) (now : ℚ) : Mon :=
  if m.stop_evt then m
  else
    let m := { m with pulse_times := m.pulse_times ++ [now] }
    let m := prunePulses cfg m now
    let m := { m with state := { m.state with
      motion_pulses_total := m.state.motion_pulses_total + 1,
      motion_pulses_since_reset := m.state.motion_pulses_since_reset + 1 } }
    let m :=
      if m.state.armed then
        let m :=
          if m.state.motion_pulses_since_arm = 0 ∧ m.state.arm_ts ≠ 0 then
            emit m "first_pulse_after_arm"
          else m
        { m with state := { m.state with
            motion_pulses_since_arm := m.state.motion_pulses_since_arm + 1 } }
      else m
    { m with state := { m.state with last_pulse_ts := now }, stall_next_idx := 0 }

/-- Method `_cmd_rearm`: clear latch and counters, then arm with a fresh
timeout reference. -/
def cmdRearm (cfg : Config) (m : Mon) (now : ℚ) : Mon :=
  let m := { m with state := { m.state with
    latched := false, runout_asserted := false,
    motion_pulses_since_reset := 0, motion_pulses_since_arm := 0,
    arm_ts := now, last_pulse_ts := now } }
  let m := resetPulseTracking cfg m now
  let m := { m with stall_next_idx := 0 }
  let m := { m with state := { m.state with enabled := true, armed := true } }
  emit m "rearmed"

/-- Body of `_handle_control_marker` after `low = line.lower()`; the method
reads the incoming line only through `low`. -/
def handleControlMarkerLow (cfg : Config) (m : Mon) (low : String) (now : ℚ) : Mon :=
  if containsSub low CONTROL_RESET then
    let m := { m with state := { m.state with
      enabled := false, armed := false, latched := false,
      runout_asserted := false, motion_pulses_since_reset := 0,
      last_pulse_ts := now, motion_pulses_since_arm := 0, arm_ts := 0 } }
    let m := resetPulseTracking cfg m now
    emit m "reset"
  else if m.state.latched then
    if containsSub low CONTROL_DISABLE then
      let m := { m with state := { m.state with enabled := false, armed := false } }
      emit m "disabled"
    else m
  else if containsSub low CONTROL_DISABLE then
    let m := { m with state := { m.state with enabled := false, armed := false } }
    emit m "disabled"
  else if containsSub low CONTROL_UNARM then
    let m := { m with state := { m.state with enabled := true, armed := false },
                      stall_next_idx := 0 }
    emit m "unarmed"
  else if containsSub low CONTROL_ARM then
    let m := { m with state := { m.state with
      enabled := true, armed := true, motion_pulses_since_arm := 0,
      arm_ts := now, last_pulse_ts := now }, stall_next_idx := 0 }
    emit m "armed"
  else if containsSub low CONTROL_ENABLE then
    if m.state.enabled ∧ !m.state.armed then emit m "enabled"
    else
      let m := { m with
        state := { m.state with enabled := true, armed := false, last_pulse_ts := now },
        stall_next_idx := 0 }
      emit m "enabled"
  else m

/-- Method `_handle_control_marker` of `src/filmon/monitor.py`. -/
def handleControlMarker (cfg : Config) (m : Mon) (line : String) (now : ℚ) : Mon :=
  handleControlMarkerLow cfg m (lowerStr line) now

/-- Method `_handle_control_command` of `src/filmon/monitor.py`.  The
`status` branch evaluates `asdict(self.state)`, but `filmon/monitor.py`
never imports `asdict` (the monolithic script does, via
`from dataclasses import asdict`), so the branch raises `NameError`;
a raising branch is modelled as `Except.error`. -/
def handleControlCommand (cfg : Config) (m : Mon) (cmd : String) (now : ℚ) :
    Except String (Mon × Resp) :=
  let c := lowerStr (stripStr cmd)
  if c = "" then Except.ok (m, Resp.err "empty command")
  else if c = "status" ∨ c = "state" then
    Except.error "NameError: name asdict is not defined"
  else if c = "rearm" then Except.ok (cmdRearm cfg m now, Resp.okSimple)
  else if c = "reset" then Except.ok (handleControlMarker cfg m CONTROL_RESET now, Resp.okSimple)
  else if c = "enable" then Except.ok (handleControlMarker cfg m CONTROL_ENABLE now, Resp.okSimple)
  else if c = "arm" then Except.ok (handleControlMarker cfg m CONTROL_ARM now, Resp.okSimple)
  else if c = "unarm" then Except.ok (handleControlMarker cfg m CONTROL_UNARM now, Resp.okSimple)
  else if c = "disable" then Except.ok (handleControlMarker cfg m CONTROL_DISABLE now, Resp.okSimple)
  else Except.ok (m, Resp.err ("unknown command: " ++ c))

/-- Method `_on_rearm_button_press`: debounced on the press edge, records
the press start time; dropped after shutdown. -/
def onRearmButtonPress (cfg : Config) (m : Mon) (now : ℚ) : Mon :=
  if m.stop_evt then m
  else if now - m.last_rearm_edge < cfg.rearm_button_debounce_s then m
  else { m with last_rearm_edge := now, rearm_press_start_ts := some now }

/-- Method `_on_rearm_button_release`: short press resets, long press
rearms; dropped after shutdown. -/
def onRearmButtonRelease (cfg : Config) (m : Mon) (now : ℚ) : Mon :=
  if m.stop_evt then m
  else
    match m.rearm_press_start_ts with
    | none => m
    | some t0 =>
      let m := { m with rearm_press_start_ts := none }
      if cfg.rearm_button_long_press_s ≤ now - t0 then cmdRearm cfg m now
      else handleControlMarker cfg m CONTROL_RESET now

end Pkg

namespace Mono

/-- Method `JsonLogger.emit` of `src/filament-monitor.py` as observed by
the core; we record the event name. -/
def emit (m : Mon) (event : String) : Mon :=
  { m with emits := m.emits ++ [event] }

/-- Method `_prune_pulses` of `src/filament-monitor.py`. -/
def prunePulses (cfg : Config) (m : Mon) (now : ℚ) : Mon :=
  if cfg.pulse_window_s ≤ 0 then
    { m with pulse_times := [] }
  else
    { m with pulse_times := m.pulse_times.dropWhile (fun t => t < now - cfg.pulse_window_s) }

/-- Method `_pps` of `src/filament-monitor.py`. -/
def pps (cfg : Config) (m : Mon) (now : ℚ) : Mon × ℚ :=
  let m := prunePulses cfg m now
  if cfg.pulse_window_s ≤ 0 then (m, 0)
  else (m, (m.pulse_times.length : ℚ) / cfg.pulse_window_s)

/-- Method `_reset_pulse_tracking` of `src/filament-monitor.py`. -/
def resetPulseTracking (cfg : Config) (m : Mon) (now : ℚ) : Mon :=
  { m with pulse_times := [], stall_next_idx := 0,
           next_hb_ts := now + cfg.breadcrumb_interval_s }

/-- Method `_send_gcode` of `src/filament-monitor.py`. -/
def sendGcode (m : Mon) (gcode : String) : Mon :=
  let m := { m with writes := m.writes ++ [gcode] }
  emit m "gcode_sent"

/-- Method `_trigger_pause` of `src/filament-monitor.py`. -/
def triggerPause (cfg : Config) (m : Mon) (reason : String) (now wall : ℚ) : Mon :=
  let m := { m with state := { m.state with
    latched := true, pause_sent_ts := wall,
    last_trigger := reason, last_trigger_ts := wall } }
  let m := (pps cfg m now).1
  let m := emit m "pause_triggered"
  let m := sendGcode m "M400"
  sendGcode m cfg.pause_gcode

/-- Method `_maybe_jam` of `src/filament-monitor.py`. -/
def maybeJam (cfg : Config) (m : Mon) (now wall : ℚ) : Mon :=
  if !m.state.enabled || m.state.latched || !m.state.armed then m
  else if cfg.jam_timeout_s ≤ now - m.state.last_pulse_ts then
    triggerPause cfg m "jam" now wall
  else m

/-- Method `_cmd_rearm` of `src/filament-monitor.py`. -/
def cmdRearm (cfg : Config) (m : Mon) (now : ℚ) : Mon :=
  let m := { m with state := { m.state with
    latched := false, runout_asserted := false,
    motion_pulses_since_reset := 0, motion_pulses_since_arm := 0,
    arm_ts := now, last_pulse_ts := now } }
  let m := resetPulseTracking cfg m now
  let m := { m with stall_next_idx := 0 }
  let m := { m with state := { m.state with enabled := true, armed := true } }
  emit m "rearmed"

/-- Body of `_handle_control_marker` of `src/filament-monitor.py` after
`low = line.lower()`. -/
def handleControlMarkerLow (cfg : Config) (m : Mon) (low : String) (now : ℚ) : Mon :=
  if containsSub low CONTROL_RESET then
    let m := { m with state := { m.state with
      enabled := false, armed := false, latched := false,
      runout_asserted := false, motion_pulses_since_reset := 0,
      last_pulse_ts := now, motion_pulses_since_arm := 0, arm_ts := 0 } }
    let m := resetPulseTracking cfg m now
    emit m "reset"
  else if m.state.latched then
    if containsSub low CONTROL_DISABLE then
      let m := { m with state := { m.state with enabled := false, armed := false } }
      emit m "disabled"
    else m
  else if containsSub low CONTROL_DISABLE then
    let m := { m with state := { m.state with enabled := false, armed := false } }
    emit m "disabled"
  else if containsSub low CONTROL_UNARM then
    let m := { m with state := { m.state with enabled := true, armed := false },
                      stall_next_idx := 0 }
    emit m "unarmed"
  else if containsSub low CONTROL_ARM then
    let m := { m with state := { m.state with
      enabled := true, armed := true, motion_pulses_since_arm := 0,
      arm_ts := now, last_pulse_ts := now }, stall_next_idx := 0 }
    emit m "armed"
  else if containsSub low CONTROL_ENABLE then
    if m.state.enabled ∧ !m.state.armed then emit m "enabled"
    else
      let m := { m with
        state := { m.state with enabled := true, armed := false, last_pulse_ts := now },
        stall_next_idx := 0 }
      emit m "enabled"
  else m

/-- Method `_handle_control_marker` of `src/filament-monitor.py`. -/
def handleControlMarker (cfg : Config) (m : Mon) (line : String) (now : ℚ) : Mon :=
  handleControlMarkerLow cfg m (lowerStr line) now

/-- Method `_handle_control_command` of `src/filament-monitor.py`.  Here
the module does import `asdict` (`from dataclasses import asdict`), so the
`status` branch returns the state snapshot. -/
def handleControlCommand (cfg : Config) (m : Mon) (cmd : String) (now : ℚ) :
    Except String (Mon × Resp) :=
  let c := lowerStr (stripStr cmd)
  if c = "" then Except.ok (m, Resp.err "empty command")
  else if c = "status" ∨ c = "state" then
    Except.ok (m, Resp.okStatus m.state VERSION)
  else if c = "rearm" then Except.ok (cmdRearm cfg m now, Resp.okSimple)
  else if c = "reset" then Except.ok (handleControlMarker cfg m CONTROL_RESET now, Resp.okSimple)
  else if c = "enable" then Except.ok (handleControlMarker cfg m CONTROL_ENABLE now, Resp.okSimple)
  else if c = "arm" then Except.ok (handleControlMarker cfg m CONTROL_ARM now, Resp.okSimple)
  else if c = "unarm" then Except.ok (handleControlMarker cfg m CONTROL_UNARM now, Resp.okSimple)
  else if c = "disable" then Except.ok (handleControlMarker cfg m CONTROL_DISABLE now, Resp.okSimple)
  else Except.ok (m, Resp.err ("unknown command: " ++ c))

end Mono

/-! Recognition view of the marker handler (for the precedence claim):
the command vocabulary as a tagged enumeration, the recognizer implied by
the if-chain of `_handle_control_marker`, and the per-command effects. -/

/-- Marker command vocabulary. -/
inductive Cmd where
  | reset | disable | unarm | arm | enable
deriving Repr, DecidableEq

/-- Marker substring associated with each command. -/
def markerOf : Cmd → String
  | .reset => CONTROL_RESET
  | .disable => CONTROL_DISABLE
  | .unarm => CONTROL_UNARM
  | .arm => CONTROL_ARM
  | .enable => CONTROL_ENABLE

/-- Position of a command in the precedence order
`reset > disable > unarm > arm > enable` (lower wins). -/
def precOf : Cmd → Nat
  | .reset => 0
  | .disable => 1
  | .unarm => 2
  | .arm => 3
  | .enable => 4

/-- Marker substring `markerOf c` occurs in the lowered line. -/
def hasMarker (line : String) (c : Cmd) : Bool :=
  containsSub (lowerStr line) (markerOf c)

/-- Command recognized on a line: the first marker of the if-chain of
`_handle_control_marker` whose substring occurs in the lowered line. -/
def recognize (line : String) : Option Cmd :=
  let low := lowerStr line
  if containsSub low CONTROL_RESET then some .reset
  else if containsSub low CONTROL_DISABLE then some .disable
  else if containsSub low CONTROL_UNARM then some .unarm
  else if containsSub low CONTROL_ARM then some .arm
  else if containsSub low CONTROL_ENABLE then some .enable
  else none

namespace Pkg

/-- Effect of the `filmon:reset` branch of `_handle_control_marker`. -/
def applyReset (cfg : Config) (m : Mon) (now : ℚ) : Mon :=
  let m := { m with state := { m.state with
    enabled := false, armed := false, latched := false,
    runout_asserted := false, motion_pulses_since_reset := 0,
    last_pulse_ts := now, motion_pulses_since_arm := 0, arm_ts := 0 } }
  let m := resetPulseTracking cfg m now
  emit m "reset"

/-- Effect of the `filmon:disable` branch (same mutations in the latched
and unlatched branches of the method). -/
def applyDisable (m : Mon) : Mon :=
  let m := { m with state := { m.state with enabled := false, armed := false } }
  emit m "disabled"

/-- Effect of the `filmon:unarm` branch. -/
def applyUnarm (m : Mon) : Mon :=
  let m := { m with state := { m.state with enabled := true, armed := false },
                    stall_next_idx := 0 }
  emit m "unarmed"

/-- Effect of the `filmon:arm` branch. -/
def applyArm (m : Mon) (now : ℚ) : Mon :=
  let m := { m with state := { m.state with
    enabled := true, armed := true, motion_pulses_since_arm := 0,
    arm_ts := now, last_pulse_ts := now }, stall_next_idx := 0 }
  emit m "armed"

/-- Effect of the `filmon:enable` branch. -/
def applyEnable (m : Mon) (now : ℚ) : Mon :=
  if m.state.enabled ∧ !m.state.armed then emit m "enabled"
  else
    let m := { m with
      state := { m.state with enabled := true, armed := false, last_pulse_ts := now },
      stall_next_idx := 0 }
    emit m "enabled"

/-- Dispatch of a recognized command, with the latched gate of the method:
while latched, only `reset` and `disable` act. -/
def applyCmd (cfg : Config) (m : Mon) (now : ℚ) : Option Cmd → Mon
  | some .reset => applyReset cfg m now
  | some .disable => applyDisable m
  | some .unarm => if m.state.latched then m else applyUnarm m
  | some .arm => if m.state.latched then m else applyArm m now
  | some .enable => if m.state.latched then m else applyEnable m now
  | none => m

/-! Event machine: one step per delivered callback, serial line, socket
line, or periodic evaluation, driving the embedded methods above.  `now`
is the monotonic-clock reading at the step, `wall` the wall-clock reading
(used only for the operator-visible timestamps set by `_trigger_pause`). -/

/-- External events delivered to the monitor. -/
inductive Ev where
  | pulse (now : ℚ)
  | runoutA (now wall : ℚ)
  | runoutC (now : ℚ)
  | serialLine (line : String) (now : ℚ)
  | jamCheck (now wall : ℚ)
  | btnPress (now : ℚ)
  | btnRelease (now : ℚ)
  | sockLine (cmd : String) (now : ℚ)
  | sigstop
deriving Repr, DecidableEq

/-- One delivered event.  A socket line is answered by
`_handle_control_command` inside a try/except, so a raising branch leaves
the monitor unchanged; `sigstop` models `stop()` setting `_stop_evt`. -/
def step (cfg : Config) (m : Mon) : Ev → Mon
  | .pulse now => onMotionPulse cfg m now
  | .runoutA now wall => onRunoutAsserted cfg m now wall
  | .runoutC now => onRunoutCleared cfg m now
  | .serialLine line now => handleControlMarker cfg m line now
  | .jamCheck now wall => maybeJam cfg m now wall
  | .btnPress now => onRearmButtonPress cfg m now
  | .btnRelease now => onRearmButtonRelease cfg m now
  | .sockLine cmd now =>
    match handleControlCommand cfg m cmd now with
    | .ok (m2, _) => m2
    | .error _ => m
  | .sigstop => { m with stop_evt := true }

/-- Run of the monitor over a list of delivered events. -/
def run (cfg : Config) (m : Mon) : List Ev → Mon
  | [] => m
  | e :: evs => run cfg (step cfg m e) evs

/-- Number of `latched` false-to-true transitions along a run. -/
def latchCount (cfg : Config) (m : Mon) : List Ev → Nat
  | [] => 0
  | e :: evs =>
    (if m.state.latched = false ∧ (step cfg m e).state.latched = true then 1 else 0)
      + latchCount cfg (step cfg m e) evs

end Pkg

namespace SpecModel

/-- Configuration of the adaptive jam-timeout engine.  These are the
`jam_timeout_adaptive`, `jam_timeout_min/max/k/pps_floor` and
`arm_grace_pulses`, `arm_grace_s` parameters that `filmon/cli.py` passes
and the test suite exercises. -/
structure AdaptiveCfg where
  jam_timeout_adaptive : Bool := false
  jam_timeout_s : ℚ := 8
  jam_timeout_min_s : ℚ := 6
  jam_timeout_max_s : ℚ := 18
  jam_timeout_k : ℚ := 16
  jam_timeout_pps_floor : ℚ := 3/10
  arm_grace_pulses : Nat := 0
  arm_grace_s : ℚ := 0
deriving Repr, DecidableEq

/-- Clamp of `x` into the interval from `lo` to `hi` (`hi` wins over `lo`
only when the interval is empty, which the claims exclude). -/
def clamp (lo hi x : ℚ) : ℚ := max lo (min hi x)

/-- Modelled from the spec: the effective jam timeout of section 4.4,
`T_eff = clamp(T_min, T_max, K / max(pps_ema, pps_floor))` when adaptive
mode is enabled and the constant `jam_timeout_s` otherwise.  The method
(`jam_timeout_effective_s` / `_effective_jam_timeout_s`) is referenced by
`src/filmon/cli.py` and by the adaptive-timeout tests but is absent from
`FilamentMonitor` in `src/filmon/monitor.py`. -/
def jam_timeout_effective_s (cfg : AdaptiveCfg) (pps_ema : ℚ) : ℚ :=
  if cfg.jam_timeout_adaptive then
    clamp cfg.jam_timeout_min_s cfg.jam_timeout_max_s
      (cfg.jam_timeout_k / max pps_ema cfg.jam_timeout_pps_floor)
  else cfg.jam_timeout_s

/-- Modelled from the spec: periodic jam evaluation of section 4.5 with
the post-arm grace gates (`arm_grace_pulses`, `arm_grace_s`) and the
effective timeout of section 4.4; the grace gates are referenced by the
tests and by `src/filmon/cli.py` but absent from `_maybe_jam` in
`src/filmon/monitor.py`.  Returns the updated `MonitorState`. -/
def maybe_jam (cfg : AdaptiveCfg) (st : MonitorState) (pps_ema : ℚ) (now wall : ℚ) :
    MonitorState :=
  if !(st.enabled && st.armed) || st.latched then st
  else if 0 < cfg.arm_grace_pulses ∧ st.motion_pulses_since_arm < cfg.arm_grace_pulses then st
  else if 0 < cfg.arm_grace_s ∧ now - st.arm_ts < cfg.arm_grace_s then st
  else if jam_timeout_effective_s cfg pps_ema ≤ now - st.last_pulse_ts then
    { st with latched := true, last_trigger := "jam",
              last_trigger_ts := wall, pause_sent_ts := wall }
  else st

end SpecModel

/-! Keyword-call model for the CLI claim: `filmon/cli.py` constructs
`FilamentMonitor` with keyword arguments; Python raises `TypeError` on a
keyword argument that matches no parameter of `__init__` (which declares
no `**kwargs`). -/

/-- Parameter names of `FilamentMonitor.__init__` in `src/filmon/monitor.py`
(lines 25 to 44), `self` aside. -/
def filamentMonitorInitParams : List String :=
  ["state", "logger", "motion_gpio", "runout_gpio", "runout_active_high",
   "runout_debounce_s", "jam_timeout_s", "arm_min_pulses", "pause_gcode",
   "verbose", "breadcrumb_interval_s", "pulse_window_s", "stall_thresholds_s",
   "rearm_button_gpio", "rearm_button_active_high", "rearm_button_debounce_s",
   "rearm_button_long_press_s"]

/-- Keyword-argument names used by the `FilamentMonitor(...)` call in
`filmon.cli.main` (`src/filmon/cli.py` lines 102 to 127). -/
def cliMainMonitorKwargs : List String :=
  ["state", "logger", "motion_gpio", "runout_gpio", "runout_active_high",
   "runout_debounce_s", "jam_timeout_s", "jam_timeout_adaptive",
   "jam_timeout_min_s", "jam_timeout_max_s", "jam_timeout_k",
   "jam_timeout_pps_floor", "jam_timeout_ema_halflife_s", "arm_grace_pulses",
   "arm_grace_s", "arm_min_pulses", "pause_gcode", "verbose",
   "breadcrumb_interval_s", "pulse_window_s", "stall_thresholds_s",
   "rearm_button_gpio", "rearm_button_active_high", "rearm_button_debounce_s"]

/-- Python keyword-call semantics: the call raises `TypeError` exactly when
some passed keyword matches no declared parameter. -/
def kwCallRaisesTypeError (params kwargs : List String) : Bool :=
  kwargs.any (fun k => !params.contains k)

/-! Helper predicates and concrete instances used by the theorems below. -/

/-- Write/latch bookkeeping of a single step: either the step latched
(from unlatched) and appended exactly the pause pair, or it did not latch
and appended nothing. -/
def StepOk (cfg : Config) (m m2 : Mon) : Prop :=
  (m.state.latched = false ∧ m2.state.latched = true ∧
     m2.writes = m.writes ++ ["M400", cfg.pause_gcode]) ∨
  (¬(m.state.latched = false ∧ m2.state.latched = true) ∧ m2.writes = m.writes)

/-- Events allowed by the enable-without-arm claim: pulses, pulse gaps
(periodic jam checks at arbitrary instants), runout edges, and serial
lines carrying the enable marker (or no marker) but never an arm. -/
def armFree : Pkg.Ev → Bool
  | .pulse _ => true
  | .runoutA _ _ => true
  | .runoutC _ => true
  | .jamCheck _ _ => true
  | .serialLine line _ => recognize line = some Cmd.enable ∨ recognize line = none
  | _ => false

/-- Configuration used by concrete instances: one-second jam timeout, no
runout debounce. -/
def cfgW : Config := { jam_timeout_s := 1, runout_debounce_s := 0 }

/-- Armed, unlatched monitor. -/
def mArmed : Mon := { state := { enabled := true, armed := true } }

/-- Latched monitor (armed and enabled at the moment of latch). -/
def mLatched : Mon :=
  { state := { enabled := true, armed := true, latched := true, last_trigger := "jam" } }

/-- Armed monitor after `stop()` has set the stop event. -/
def mStopArmed : Mon := { state := { enabled := true, armed := true }, stop_evt := true }

/-- Adaptive configuration with both post-arm grace gates enabled. -/
def cfgGrace : SpecModel.AdaptiveCfg :=
  { jam_timeout_adaptive := false, jam_timeout_s := 1, arm_grace_pulses := 12, arm_grace_s := 12 }

/-- Armed state that has seen twelve pulses since arming. -/
def stGrace : MonitorState :=
  { enabled := true, armed := true, motion_pulses_since_arm := 12 }

/-! Lemmas about the embedded methods. -/

@[simp]
theorem pkg_emit_writes (m : Mon) (e : String) : (Pkg.emit m e).writes = m.writes := rfl

@[simp]
theorem pkg_emit_state (m : Mon) (e : String) : (Pkg.emit m e).state = m.state := rfl

@[simp]
theorem pkg_prune_writes (cfg : Config) (m : Mon) (now : ℚ) :
    (Pkg.prunePulses cfg m now).writes = m.writes := by
  unfold Pkg.prunePulses; split <;> rfl

@[simp]
theorem pkg_prune_state (cfg : Config) (m : Mon) (now : ℚ) :
    (Pkg.prunePulses cfg m now).state = m.state := by
  unfold Pkg.prunePulses; split <;> rfl

@[simp]
theorem pkg_pps_fst (cfg : Config) (m : Mon) (now : ℚ) :
    (Pkg.pps cfg m now).1 = Pkg.prunePulses cfg m now := by
  unfold Pkg.pps; split <;> rfl

@[simp]
theorem pkg_sendGcode_writes (m : Mon) (g : String) :
    (Pkg.sendGcode m g).writes = m.writes ++ [g] := rfl

@[simp]
theorem pkg_sendGcode_state (m : Mon) (g : String) : (Pkg.sendGcode m g).state = m.state := rfl

theorem pkg_trigger_writes (cfg : Config) (m : Mon) (r : String) (now wall : ℚ) :
    (Pkg.triggerPause cfg m r now wall).writes = m.writes ++ ["M400", cfg.pause_gcode] := by
  simp [Pkg.triggerPause]

theorem pkg_trigger_latched (cfg : Config) (m : Mon) (r : String) (now wall : ℚ) :
    (Pkg.triggerPause cfg m r now wall).state.latched = true := by
  simp [Pkg.triggerPause, Pkg.sendGcode, Pkg.emit]

@[simp]
theorem pkg_rearm_writes (cfg : Config) (m : Mon) (now : ℚ) :
    (Pkg.cmdRearm cfg m now).writes = m.writes := rfl

@[simp]
theorem pkg_rearm_latched (cfg : Config) (m : Mon) (now : ℚ) :
    (Pkg.cmdRearm cfg m now).state.latched = false := rfl

theorem pkg_markerLow_writes (cfg : Config) (m : Mon) (low : String) (now : ℚ) :
    (Pkg.handleControlMarkerLow cfg m low now).writes = m.writes := by
  unfold Pkg.handleControlMarkerLow Pkg.resetPulseTracking
  repeat' split
  all_goals rfl

theorem pkg_markerLow_latched (cfg : Config) (m : Mon) (low : String) (now : ℚ)
    (h : m.state.latched = false) :
    (Pkg.handleControlMarkerLow cfg m low now).state.latched = false := by
  unfold Pkg.handleControlMarkerLow Pkg.resetPulseTracking
  repeat' split
  all_goals simp_all [Pkg.emit]

theorem pkg_marker_writes (cfg : Config) (m : Mon) (line : String) (now : ℚ) :
    (Pkg.handleControlMarker cfg m line now).writes = m.writes :=
  pkg_markerLow_writes cfg m (lowerStr line) now

theorem pkg_marker_latched (cfg : Config) (m : Mon) (line : String) (now : ℚ)
    (h : m.state.latched = false) :
    (Pkg.handleControlMarker cfg m line now).state.latched = false :=
  pkg_markerLow_latched cfg m (lowerStr line) now h

theorem pkg_pulse_writes (cfg : Config) (m : Mon) (now : ℚ) :
    (Pkg.onMotionPulse cfg m now).writes = m.writes := by
  simp only [Pkg.onMotionPulse]
  split_ifs <;> simp [Pkg.emit]

theorem pkg_pulse_latched (cfg : Config) (m : Mon) (now : ℚ) :
    (Pkg.onMotionPulse cfg m now).state.latched = m.state.latched := by
  simp only [Pkg.onMotionPulse]
  split_ifs <;> simp [Pkg.emit]

theorem pkg_pulse_armed (cfg : Config) (m : Mon) (now : ℚ) :
    (Pkg.onMotionPulse cfg m now).state.armed = m.state.armed := by
  simp only [Pkg.onMotionPulse]
  split_ifs <;> simp [Pkg.emit]


theorem stepok_of_unlatched (cfg : Config) (m m2 : Mon)
    (h : m2.state.latched = false) (hw : m2.writes = m.writes) : StepOk cfg m m2 := by
  right
  refine ⟨fun h2 => ?_, hw⟩
  rw [h] at h2
  cases h2.2

theorem stepok_of_same (cfg : Config) (m m2 : Mon)
    (h : m2.state.latched = m.state.latched) (hw : m2.writes = m.writes) : StepOk cfg m m2 := by
  right
  refine ⟨fun h2 => ?_, hw⟩
  rw [h, h2.1] at h2
  cases h2.2

theorem stepok_refl (cfg : Config) (m : Mon) : StepOk cfg m m :=
  stepok_of_same cfg m m rfl rfl

theorem stepok_of_trigger (cfg : Config) (m m2 : Mon) (r : String) (now wall : ℚ)
    (hw : m2.writes = m.writes) (h0 : m.state.latched = false) :
    StepOk cfg m (Pkg.triggerPause cfg m2 r now wall) :=
  Or.inl ⟨h0, pkg_trigger_latched cfg m2 r now wall, by rw [pkg_trigger_writes, hw]⟩

theorem pkg_runoutA_ok (cfg : Config) (m : Mon) (now wall : ℚ) :
    StepOk cfg m (Pkg.onRunoutAsserted cfg m now wall) := by
  simp only [Pkg.onRunoutAsserted, Pkg.debounced]
  split_ifs with h1 h2 h3 h4 h5 h6 h7
  all_goals first
    | exact stepok_refl cfg m
    | exact stepok_of_same cfg m _ rfl rfl
    | (refine stepok_of_trigger cfg m _ "runout" now wall rfl ?_; simp_all; done)
    | (simp_all; done)

theorem pkg_runoutC_ok (cfg : Config) (m : Mon) (now : ℚ) :
    StepOk cfg m (Pkg.onRunoutCleared cfg m now) := by
  simp only [Pkg.onRunoutCleared, Pkg.debounced]
  split_ifs with h1 h2 h3 h4 h5
  all_goals first
    | exact stepok_refl cfg m
    | exact stepok_of_same cfg m _ rfl rfl
    | (simp_all; done)

theorem pkg_jam_ok (cfg : Config) (m : Mon) (now wall : ℚ) :
    StepOk cfg m (Pkg.maybeJam cfg m now wall) := by
  simp only [Pkg.maybeJam]
  split_ifs with h1 h2
  · exact stepok_refl cfg m
  · refine stepok_of_trigger cfg m m "jam" now wall rfl ?_
    simp only [Bool.or_eq_true, Bool.not_eq_true'] at h1
    push_neg at h1
    simp_all
  · exact stepok_refl cfg m

theorem pkg_marker_ok (cfg : Config) (m : Mon) (line : String) (now : ℚ) :
    StepOk cfg m (Pkg.handleControlMarker cfg m line now) := by
  right
  refine ⟨fun h2 => ?_, pkg_marker_writes cfg m line now⟩
  have := pkg_marker_latched cfg m line now h2.1
  rw [this] at h2
  cases h2.2

theorem pkg_btnPress_ok (cfg : Config) (m : Mon) (now : ℚ) :
    StepOk cfg m (Pkg.onRearmButtonPress cfg m now) := by
  simp only [Pkg.onRearmButtonPress]
  split_ifs
  all_goals exact stepok_of_same cfg m _ rfl rfl

theorem pkg_btnRelease_ok (cfg : Config) (m : Mon) (now : ℚ) :
    StepOk cfg m (Pkg.onRearmButtonRelease cfg m now) := by
  simp only [Pkg.onRearmButtonRelease]
  split
  · exact stepok_refl cfg m
  · split
    · exact stepok_refl cfg m
    · split_ifs
      · exact stepok_of_unlatched cfg m _ (pkg_rearm_latched cfg _ now) (pkg_rearm_writes cfg _ now)
      · exact pkg_marker_ok cfg _ CONTROL_RESET now

theorem pkg_sock_ok (cfg : Config) (m : Mon) (cmd : String) (now : ℚ) :
    StepOk cfg m
      (match Pkg.handleControlCommand cfg m cmd now with
        | .ok (m2, _) => m2
        | .error _ => m) := by
  simp only [Pkg.handleControlCommand]
  split_ifs
  all_goals first
    | exact stepok_refl cfg m
    | exact stepok_of_unlatched cfg m _ (pkg_rearm_latched cfg _ now) (pkg_rearm_writes cfg _ now)
    | exact pkg_marker_ok cfg m _ now

theorem pkg_step_ok (cfg : Config) (m : Mon) (e : Pkg.Ev) :
    StepOk cfg m (Pkg.step cfg m e) := by
  cases e with
  | pulse now =>
    exact stepok_of_same cfg m _ (pkg_pulse_latched cfg m now) (pkg_pulse_writes cfg m now)
  | runoutA now wall => exact pkg_runoutA_ok cfg m now wall
  | runoutC now => exact pkg_runoutC_ok cfg m now
  | serialLine line now => exact pkg_marker_ok cfg m line now
  | jamCheck now wall => exact pkg_jam_ok cfg m now wall
  | btnPress now => exact pkg_btnPress_ok cfg m now
  | btnRelease now => exact pkg_btnRelease_ok cfg m now
  | sockLine cmd now => exact pkg_sock_ok cfg m cmd now
  | sigstop => exact stepok_of_same cfg m _ rfl rfl

theorem pkg_run_writes (cfg : Config) (evs : List Pkg.Ev) : ∀ (m : Mon),
    (Pkg.run cfg m evs).writes.length = m.writes.length + 2 * Pkg.latchCount cfg m evs := by
  induction evs with
  | nil => intro m; simp [Pkg.run, Pkg.latchCount]
  | cons e evs ih =>
    intro m
    have ihe := ih (Pkg.step cfg m e)
    rcases pkg_step_ok cfg m e with ⟨h1, h2, h3⟩ | ⟨h12, h3⟩
    · simp only [Pkg.run, Pkg.latchCount, if_pos (And.intro h1 h2)]
      rw [ihe, h3, List.length_append]
      simp only [List.length_cons, List.length_nil]
      omega
    · simp only [Pkg.run, Pkg.latchCount, if_neg h12]
      rw [ihe, h3]
      omega

theorem pkg_marker_dispatch (cfg : Config) (m : Mon) (line : String) (now : ℚ) :
    Pkg.handleControlMarker cfg m line now = Pkg.applyCmd cfg m now (recognize line) := by
  unfold Pkg.handleControlMarker Pkg.handleControlMarkerLow recognize
  by_cases h1 : containsSub (lowerStr line) CONTROL_RESET
  · simp [h1, Pkg.applyCmd, Pkg.applyReset]
  · by_cases h2 : containsSub (lowerStr line) CONTROL_DISABLE
    · by_cases hl : m.state.latched = true <;>
        simp [h1, h2, hl, Pkg.applyCmd, Pkg.applyDisable]
    · by_cases h3 : containsSub (lowerStr line) CONTROL_UNARM
      · by_cases hl : m.state.latched = true <;>
          simp [h1, h2, h3, hl, Pkg.applyCmd, Pkg.applyUnarm]
      · by_cases h4 : containsSub (lowerStr line) CONTROL_ARM
        · by_cases hl : m.state.latched = true <;>
            simp [h1, h2, h3, h4, hl, Pkg.applyCmd, Pkg.applyArm]
        · by_cases h5 : containsSub (lowerStr line) CONTROL_ENABLE
          · by_cases hl : m.state.latched = true <;>
              simp [h1, h2, h3, h4, h5, hl, Pkg.applyCmd, Pkg.applyEnable]
          · by_cases hl : m.state.latched = true <;>
              simp [h1, h2, h3, h4, h5, hl, Pkg.applyCmd]

theorem pkg_armfree_step (cfg : Config) (m : Mon) (e : Pkg.Ev) (he : armFree e = true)
    (ha : m.state.armed = false) (hl : m.state.latched = false) :
    (Pkg.step cfg m e).state.armed = false ∧ (Pkg.step cfg m e).state.latched = false ∧
      (Pkg.step cfg m e).writes = m.writes := by
  cases e with
  | pulse now =>
    exact ⟨by rw [Pkg.step, pkg_pulse_armed, ha], by rw [Pkg.step, pkg_pulse_latched, hl],
           pkg_pulse_writes cfg m now⟩
  | runoutA now wall =>
    simp only [Pkg.step, Pkg.onRunoutAsserted, Pkg.debounced]
    split_ifs with h1 h2 h3 h4 h5 h6 h7
    all_goals simp_all
  | runoutC now =>
    simp only [Pkg.step, Pkg.onRunoutCleared, Pkg.debounced]
    split_ifs with h1 h2 h3 h4 h5
    all_goals simp_all
  | jamCheck now wall =>
    simp only [Pkg.step, Pkg.maybeJam]
    split_ifs with h1 h2
    all_goals simp_all
  | serialLine line now =>
    have hrec := of_decide_eq_true he
    simp only [Pkg.step, pkg_marker_dispatch]
    rcases hrec with hrec | hrec
    · simp only [hrec, Pkg.applyCmd, hl, if_false, Bool.false_eq_true, Pkg.applyEnable]
      split_ifs <;> simp_all [Pkg.emit]
    · simp [hrec, Pkg.applyCmd, ha, hl]
  | btnPress now => simp [armFree] at he
  | btnRelease now => simp [armFree] at he
  | sockLine cmd now => simp [armFree] at he
  | sigstop => simp [armFree] at he

theorem pkg_armfree_run (cfg : Config) (evs : List Pkg.Ev) : ∀ (m : Mon),
    (∀ e ∈ evs, armFree e = true) → m.state.armed = false → m.state.latched = false →
    (Pkg.run cfg m evs).state.armed = false ∧ (Pkg.run cfg m evs).state.latched = false ∧
      (Pkg.run cfg m evs).writes = m.writes := by
  induction evs with
  | nil => intro m _ ha hl; exact ⟨ha, hl, rfl⟩
  | cons e evs ih =>
    intro m hall ha hl
    have hstep := pkg_armfree_step cfg m e (hall e (by simp)) ha hl
    have hrest := ih (Pkg.step cfg m e) (fun x hx => hall x (by simp [hx])) hstep.1 hstep.2.1
    simp only [Pkg.run]
    exact ⟨hrest.1, hrest.2.1, by rw [hrest.2.2, hstep.2.2]⟩

/-! Claim theorems. -/

/-- Claim C1: along every run, each false-to-true transition of `latched`
writes exactly one pause pair (the line `M400` then the configured pause
g-code), so the total number of pause lines written is twice the number of
latch transitions; and while `latched` holds, jam evaluation and the
runout-asserted path write nothing further. -/
theorem pause_pair_per_latch (cfg : Config) (m : Mon) (evs : List Pkg.Ev) :
    (Pkg.run cfg m evs).writes.length = m.writes.length + 2 * Pkg.latchCount cfg m evs ∧
    (∀ e : Pkg.Ev, m.state.latched = false → (Pkg.step cfg m e).state.latched = true →
      (Pkg.step cfg m e).writes = m.writes ++ ["M400", cfg.pause_gcode]) ∧
    (∀ now wall : ℚ, m.state.latched = true →
      (Pkg.step cfg m (Pkg.Ev.jamCheck now wall)).writes = m.writes ∧
      (Pkg.step cfg m (Pkg.Ev.runoutA now wall)).writes = m.writes) := by
  refine ⟨pkg_run_writes cfg evs m, fun e h0 h1 => ?_, fun now wall hlat => ?_⟩
  · rcases pkg_step_ok cfg m e with ⟨_, _, h3⟩ | ⟨h12, h3⟩
    · exact h3
    · exact absurd ⟨h0, h1⟩ h12
  · constructor
    · rcases pkg_step_ok cfg m (Pkg.Ev.jamCheck now wall) with ⟨h1, _, _⟩ | ⟨_, h3⟩
      · rw [hlat] at h1; cases h1
      · exact h3
    · rcases pkg_step_ok cfg m (Pkg.Ev.runoutA now wall) with ⟨h1, _, _⟩ | ⟨_, h3⟩
      · rw [hlat] at h1; cases h1
      · exact h3

/-- Witness for C1 at a concrete armed monitor and jam check. -/
theorem pause_pair_per_latch_witness :
    (Pkg.step cfgW mArmed (Pkg.Ev.jamCheck 5 5)).writes =
      mArmed.writes ++ ["M400", cfgW.pause_gcode] :=
  (pause_pair_per_latch cfgW mArmed []).2.1 (Pkg.Ev.jamCheck 5 5) rfl
    (by with_unfolding_all decide)

/-- Claim C2 (spec-modelled): with adaptive mode enabled the effective jam
timeout equals `clamp(T_min, T_max, K / max(pps_ema, pps_floor))` and lies
between `T_min` and `T_max`; with adaptive mode disabled it equals the
constant `jam_timeout_s`. -/
theorem adaptive_timeout_clamped (cfg : SpecModel.AdaptiveCfg) (ema : ℚ)
    (h : cfg.jam_timeout_min_s ≤ cfg.jam_timeout_max_s) :
    (cfg.jam_timeout_adaptive = true →
      SpecModel.jam_timeout_effective_s cfg ema =
        SpecModel.clamp cfg.jam_timeout_min_s cfg.jam_timeout_max_s
          (cfg.jam_timeout_k / max ema cfg.jam_timeout_pps_floor) ∧
      cfg.jam_timeout_min_s ≤ SpecModel.jam_timeout_effective_s cfg ema ∧
      SpecModel.jam_timeout_effective_s cfg ema ≤ cfg.jam_timeout_max_s) ∧
    (cfg.jam_timeout_adaptive = false →
      SpecModel.jam_timeout_effective_s cfg ema = cfg.jam_timeout_s) := by
  constructor
  · intro ha
    refine ⟨?_, ?_, ?_⟩
    · simp [SpecModel.jam_timeout_effective_s, ha, SpecModel.clamp]
    · simp only [SpecModel.jam_timeout_effective_s, ha, if_true, SpecModel.clamp]
      exact le_max_left _ _
    · simp only [SpecModel.jam_timeout_effective_s, ha, if_true, SpecModel.clamp]
      exact max_le h (min_le_left _ _)
  · intro ha
    simp [SpecModel.jam_timeout_effective_s, ha]

/-- Witness for C2 at the adaptive configuration of the spec scenario. -/
theorem adaptive_timeout_clamped_witness :
    ((6 : ℚ) ≤ SpecModel.jam_timeout_effective_s { jam_timeout_adaptive := true } 2 ∧
      SpecModel.jam_timeout_effective_s { jam_timeout_adaptive := true } 2 ≤ 18) ∧
    SpecModel.jam_timeout_effective_s { jam_timeout_adaptive := false } 2 = 8 := by
  have h := adaptive_timeout_clamped { jam_timeout_adaptive := true } 2 (by decide)
  have h2 := adaptive_timeout_clamped { jam_timeout_adaptive := false } 2 (by decide)
  exact ⟨⟨(h.1 rfl).2.1, (h.1 rfl).2.2⟩, h2.2 rfl⟩

/-- Claim C3 (code bug): the motion-pulse and button callbacks silently
drop events once the stop flag is set, but the runout callbacks are not
gated by `_stop_evt`: a debounced runout-asserted edge delivered after
`stop()` still mutates `MonitorState` and, when armed, latches a pause and
writes the pause pair. -/
theorem runout_after_stop_mutates :
    mStopArmed.stop_evt = true ∧
    Pkg.onMotionPulse cfgW mStopArmed 9 = mStopArmed ∧
    Pkg.onRearmButtonPress cfgW mStopArmed 9 = mStopArmed ∧
    Pkg.onRearmButtonRelease cfgW mStopArmed 9 = mStopArmed ∧
    mStopArmed.state.runout_asserted = false ∧ mStopArmed.state.latched = false ∧
    (Pkg.onRunoutAsserted cfgW mStopArmed 9 9).state.runout_asserted = true ∧
    (Pkg.onRunoutAsserted cfgW mStopArmed 9 9).state.latched = true ∧
    (Pkg.onRunoutAsserted cfgW mStopArmed 9 9).writes = ["M400", "M600"] := by
  with_unfolding_all decide

/-- Claim C4: starting from the initial state, a command sequence of
enable markers, pulses, pulse gaps (jam checks at arbitrary instants), and
runout edges — with no arm — never sets `latched` and never writes a byte. -/
theorem enable_only_never_latches (cfg : Config) (evs : List Pkg.Ev)
    (h : ∀ e ∈ evs, armFree e = true) :
    (Pkg.run cfg {} evs).state.latched = false ∧ (Pkg.run cfg {} evs).writes = [] := by
  have hr := pkg_armfree_run cfg evs {} h rfl rfl
  exact ⟨hr.2.1, hr.2.2⟩

/-- Witness for C4: enable, then a jam check five seconds later. -/
theorem enable_only_never_latches_witness :
    (Pkg.run cfgW {}
        [Pkg.Ev.serialLine "M118 A1 filmon:enable" 0, Pkg.Ev.jamCheck 5 5]).state.latched =
      false ∧
    (Pkg.run cfgW {}
        [Pkg.Ev.serialLine "M118 A1 filmon:enable" 0, Pkg.Ev.jamCheck 5 5]).writes = [] :=
  enable_only_never_latches cfgW
    [Pkg.Ev.serialLine "M118 A1 filmon:enable" 0, Pkg.Ev.jamCheck 5 5] (by decide)

/-- Claim C5 (spec-modelled): when the grace-gated jam evaluation latches
a jam from an unlatched armed state, at least `max(arm_grace_s, 0)`
seconds have elapsed since `arm_ts`, and when `arm_grace_pulses > 0` at
least that many pulses have been counted since arming.  The timestamp
hypothesis `arm_ts ≤ last_pulse_ts` is established by `arm`, which sets
both to the arming instant. -/
theorem post_arm_grace (cfg : SpecModel.AdaptiveCfg) (st : MonitorState) (ema now wall : ℚ)
    (harm : st.arm_ts ≤ st.last_pulse_ts)
    (hmin0 : 0 ≤ cfg.jam_timeout_min_s)
    (hfix : 0 ≤ cfg.jam_timeout_s)
    (hnot : st.latched = false)
    (hlatch : (SpecModel.maybe_jam cfg st ema now wall).latched = true) :
    max cfg.arm_grace_s 0 ≤ now - st.arm_ts ∧
    (0 < cfg.arm_grace_pulses → cfg.arm_grace_pulses ≤ st.motion_pulses_since_arm) := by
  unfold SpecModel.maybe_jam at hlatch
  split_ifs at hlatch with h1 h2 h3 h4
  · rw [hnot] at hlatch; cases hlatch
  · rw [hnot] at hlatch; cases hlatch
  · rw [hnot] at hlatch; cases hlatch
  · have hT : 0 ≤ SpecModel.jam_timeout_effective_s cfg ema := by
      unfold SpecModel.jam_timeout_effective_s SpecModel.clamp
      split_ifs
      · exact le_trans hmin0 (le_max_left _ _)
      · exact hfix
    have hnow : 0 ≤ now - st.last_pulse_ts := le_trans hT h4
    have hnowarm : 0 ≤ now - st.arm_ts :=
      le_trans hnow (sub_le_sub_left harm now)
    refine ⟨max_le ?_ hnowarm, fun hp => ?_⟩
    · by_cases hg : 0 < cfg.arm_grace_s
      · exact le_trans (le_of_not_lt (not_and.mp h3 hg)) (le_refl _)
      · exact le_trans (le_of_not_lt hg) hnowarm
    · exact le_of_not_lt (not_and.mp h2 hp)
  · rw [hnot] at hlatch; cases hlatch

/-- Witness for C5 at a concrete latching configuration. -/
theorem post_arm_grace_witness :
    max cfgGrace.arm_grace_s 0 ≤ 14 - stGrace.arm_ts ∧
    (0 < cfgGrace.arm_grace_pulses →
      cfgGrace.arm_grace_pulses ≤ stGrace.motion_pulses_since_arm) :=
  post_arm_grace cfgGrace stGrace 0 14 14 (by with_unfolding_all decide)
    (by with_unfolding_all decide) (by with_unfolding_all decide) rfl
    (by with_unfolding_all decide)

/-- Claim C6 counterexample: a `disable` marker processed while latched
clears `enabled` and `armed` but leaves `latched` true, so `disable` is
not a way out of the latched state. -/
theorem disable_keeps_latched :
    (Pkg.handleControlMarker cfgW mLatched "filmon:disable" 7).state.latched = true ∧
    (Pkg.handleControlMarker cfgW mLatched "filmon:disable" 7).state.enabled = false ∧
    (Pkg.handleControlMarker cfgW mLatched "filmon:disable" 7).state.armed = false := by
  with_unfolding_all decide

/-- Claim C6 (amended): while latched, marker commands other than disable
and reset leave the monitor unchanged; disable and reset are still
honored (disable clears enabled and armed but leaves latched set); reset
and rearm are the only commands that clear `latched`. -/
theorem latched_command_gate (cfg : Config) (m : Mon) (line : String) (now : ℚ)
    (h : m.state.latched = true) :
    (recognize line ≠ some Cmd.reset → recognize line ≠ some Cmd.disable →
      Pkg.handleControlMarker cfg m line now = m) ∧
    ((Pkg.handleControlMarker cfg m "filmon:disable" now).state.enabled = false ∧
     (Pkg.handleControlMarker cfg m "filmon:disable" now).state.armed = false ∧
     (Pkg.handleControlMarker cfg m "filmon:disable" now).state.latched = true) ∧
    (Pkg.handleControlMarker cfg m "filmon:reset" now).state.latched = false ∧
    (Pkg.cmdRearm cfg m now).state.latched = false ∧
    (∀ line2 : String, recognize line2 ≠ some Cmd.reset →
      (Pkg.handleControlMarker cfg m line2 now).state.latched = true) := by
  refine ⟨fun hr1 hr2 => ?_, ?_, ?_, pkg_rearm_latched cfg m now, fun line2 hr => ?_⟩
  · rw [pkg_marker_dispatch]
    cases hrec : recognize line with
    | none => rfl
    | some c =>
      cases c
      · exact absurd hrec hr1
      · exact absurd hrec hr2
      · simp [Pkg.applyCmd, h]
      · simp [Pkg.applyCmd, h]
      · simp [Pkg.applyCmd, h]
  · rw [pkg_marker_dispatch, (by decide : recognize "filmon:disable" = some Cmd.disable)]
    simp [Pkg.applyCmd, Pkg.applyDisable, Pkg.emit, h]
  · rw [pkg_marker_dispatch, (by decide : recognize "filmon:reset" = some Cmd.reset)]
    simp [Pkg.applyCmd, Pkg.applyReset, Pkg.resetPulseTracking, Pkg.emit]
  · rw [pkg_marker_dispatch]
    cases hrec : recognize line2 with
    | none => exact h
    | some c =>
      cases c
      · exact absurd hrec hr
      · simp [Pkg.applyCmd, Pkg.applyDisable, Pkg.emit, h]
      · simp [Pkg.applyCmd, h]
      · simp [Pkg.applyCmd, h]
      · simp [Pkg.applyCmd, h]

/-- Witness for C6 at a concrete latched monitor. -/
theorem latched_command_gate_witness :
    Pkg.handleControlMarker cfgW mLatched "M118 filmon:arm" 7 = mLatched ∧
    (Pkg.handleControlMarker cfgW mLatched "filmon:reset" 7).state.latched = false := by
  have h := latched_command_gate cfgW mLatched "M118 filmon:arm" 7 rfl
  exact ⟨h.1 (by decide) (by decide), h.2.2.1⟩

/-- Claim C7: a serial line acts through exactly one recognized command
(the dispatch equality), recognition depends only on the lowercased line
(case-insensitive substring matching), and when several marker substrings
occur the recognized command is one of them with the best precedence in
the order reset > disable > unarm > arm > enable. -/
theorem marker_precedence (cfg : Config) (m : Mon) (line : String) (now : ℚ) :
    Pkg.handleControlMarker cfg m line now = Pkg.applyCmd cfg m now (recognize line) ∧
    (∀ line2 : String, lowerStr line2 = lowerStr line →
      Pkg.handleControlMarker cfg m line2 now = Pkg.handleControlMarker cfg m line now) ∧
    (∀ c : Cmd, hasMarker line c = true →
      ∃ c2 : Cmd, recognize line = some c2 ∧ hasMarker line c2 = true ∧
        precOf c2 ≤ precOf c) := by
  refine ⟨pkg_marker_dispatch cfg m line now, fun line2 hll => ?_, fun c hc => ?_⟩
  · unfold Pkg.handleControlMarker
    rw [hll]
  · by_cases h1 : containsSub (lowerStr line) CONTROL_RESET
    · refine ⟨Cmd.reset, by simp [recognize, h1], by simp [hasMarker, markerOf, h1], ?_⟩
      cases c <;> simp [precOf]
    · by_cases h2 : containsSub (lowerStr line) CONTROL_DISABLE
      · refine ⟨Cmd.disable, by simp [recognize, h1, h2],
          by simp [hasMarker, markerOf, h2], ?_⟩
        cases c <;> simp_all [hasMarker, markerOf, precOf]
      · by_cases h3 : containsSub (lowerStr line) CONTROL_UNARM
        · refine ⟨Cmd.unarm, by simp [recognize, h1, h2, h3],
            by simp [hasMarker, markerOf, h3], ?_⟩
          cases c <;> simp_all [hasMarker, markerOf, precOf]
        · by_cases h4 : containsSub (lowerStr line) CONTROL_ARM
          · refine ⟨Cmd.arm, by simp [recognize, h1, h2, h3, h4],
              by simp [hasMarker, markerOf, h4], ?_⟩
            cases c <;> simp_all [hasMarker, markerOf, precOf]
          · by_cases h5 : containsSub (lowerStr line) CONTROL_ENABLE
            · refine ⟨Cmd.enable, by simp [recognize, h1, h2, h3, h4, h5],
                by simp [hasMarker, markerOf, h5], ?_⟩
              cases c <;> simp_all [hasMarker, markerOf, precOf]
            · cases c <;> simp_all [hasMarker, markerOf]

/-- Witness for C7: a line carrying both arm and unarm (in mixed case)
acts as unarm. -/
theorem marker_precedence_witness :
    (∃ c2 : Cmd, recognize "filmon:arm FILMON:UNARM" = some c2 ∧
      hasMarker "filmon:arm FILMON:UNARM" c2 = true ∧ precOf c2 ≤ precOf Cmd.arm) ∧
    Pkg.handleControlMarker cfgW mArmed "filmon:arm FILMON:UNARM" 3 =
      Pkg.applyCmd cfgW mArmed 3 (recognize "filmon:arm FILMON:UNARM") := by
  have h := marker_precedence cfgW mArmed "filmon:arm FILMON:UNARM" 3
  exact ⟨h.2.2 Cmd.arm (by decide), h.1⟩

/-- Claim C8 (code bug): in the packaged module, the `status` branch of
`_handle_control_command` evaluates `asdict(self.state)` but the module
never imports `asdict`, so `status` raises `NameError` (the socket loop
catches it and replies with an error object) instead of returning the
`ok:true` snapshot; unknown commands do return the specified error; the
monolithic script imports `asdict` and returns the snapshot. -/
theorem control_status_raises :
    Pkg.handleControlCommand cfgW ({} : Mon) "status" 0 =
      Except.error "NameError: name asdict is not defined" ∧
    Pkg.handleControlCommand cfgW ({} : Mon) "frobnicate" 0 =
      Except.ok ({}, Resp.err "unknown command: frobnicate") ∧
    Mono.handleControlCommand cfgW ({} : Mon) "status" 0 =
      Except.ok ({}, Resp.okStatus ({} : Mon).state VERSION) := by
  refine ⟨?_, ?_, ?_⟩ <;> rfl

/-- Claim C9: the `FilamentMonitor(...)` call in `filmon.cli.main` passes
eight keyword arguments that `FilamentMonitor.__init__` in
`filmon/monitor.py` does not declare, so every run reaching the
construction raises `TypeError` before the monitor starts. -/
theorem cli_main_kwargs_type_error :
    cliMainMonitorKwargs.filter (fun k => !filamentMonitorInitParams.contains k) =
      ["jam_timeout_adaptive", "jam_timeout_min_s", "jam_timeout_max_s", "jam_timeout_k",
       "jam_timeout_pps_floor", "jam_timeout_ema_halflife_s", "arm_grace_pulses",
       "arm_grace_s"] ∧
    kwCallRaisesTypeError filamentMonitorInitParams cliMainMonitorKwargs = true := by
  decide

/-- Claim C10: the marker handler and the periodic jam evaluation of the
packaged module and of the monolithic script are extensionally equal: on
every configuration, monitor, line, and instant they produce the same
state, the same emitted events, and the same pause-command output. -/
theorem marker_and_jam_copies_equal :
    (∀ (cfg : Config) (m : Mon) (line : String) (now : ℚ),
      Pkg.handleControlMarker cfg m line now = Mono.handleControlMarker cfg m line now) ∧
    (∀ (cfg : Config) (m : Mon) (now wall : ℚ),
      Pkg.maybeJam cfg m now wall = Mono.maybeJam cfg m now wall) :=
  ⟨fun _ _ _ _ => rfl, fun _ _ _ _ => rfl⟩
